import Mathlib

/-!
Verification of the data-transfer shaping logic in
`evennia/web/api/serializers.py` (Django REST Framework serializers for
attributes, tags, objects, accounts and scripts).

The embedding models each serializer as a pure function from the backing
record to an ordered association list of (field name, JSON value) pairs,
mirroring the declarative field lists and the handful of
`SerializerMethodField` derivation methods in the source.  Deserialization
is modelled as a fold over an input association list gated by the
declared writable field set, following the host framework convention that
read-only and method fields are never written back to the instance.
-/

set_option autoImplicit false

/-- A JSON-like value, the codomain of serializer output fields. -/
inductive JsonVal : Type where
  | s : String → JsonVal
  | n : Int → JsonVal
  | b : Bool → JsonVal
  | null : JsonVal
  | list : List JsonVal → JsonVal
  | obj : List (String × JsonVal) → JsonVal

/-- Renders a nullable string column (Python `None` becomes JSON null). -/
def optStr : Option String → JsonVal
  | none => JsonVal.null
  | some s => JsonVal.s s

/-- Renders a nullable integer column (Python `None` becomes JSON null). -/
def optNum : Option Int → JsonVal
  | none => JsonVal.null
  | some k => JsonVal.n k

/-- Python truthiness of a nullable string: `None` and the empty string
are falsy, every other string is truthy. -/
def strTruthy : Option String → Bool
  | none => false
  | some s => s ≠ ""

/-- An `Attribute` record: a key/category/type-tagged value container.
`db_strvalue` is the optional stored string form; the typed value
`value` is only ever consumed through `str(...)`, so it is embedded by
its textual form `value_str`. -/
structure Attribute : Type where
  db_key : String
  db_category : Option String
  db_attrtype : Option String
  db_strvalue : Option String
  value_str : String
  deriving DecidableEq

/-- Embeds `AttributeSerializer.get_value_display`: returns
`obj.db_strvalue` when that is truthy, else `str(obj.value)`. -/
def AttributeSerializer.get_value_display (obj : Attribute) : String :=
  if strTruthy obj.db_strvalue then obj.db_strvalue.getD obj.value_str
  else obj.value_str

/-- Field list of `AttributeSerializer.Meta`. -/
def AttributeSerializer.Meta.fields : List String :=
  ["db_key", "db_category", "db_attrtype", "value_display", "db_value"]

/-- Fields of `AttributeSerializer` declared `write_only=True`. -/
def AttributeSerializer.write_only_fields : List String :=
  ["db_value"]

/-- Fields of `AttributeSerializer` that are `SerializerMethodField`s,
hence read-only computed outputs. -/
def AttributeSerializer.method_fields : List String :=
  ["value_display"]

/-- Names appearing in serialized output: the declared fields minus the
write-only ones, in declaration order (host framework convention). -/
def AttributeSerializer.outputFieldNames : List String :=
  AttributeSerializer.Meta.fields.filter
    (fun f => !(AttributeSerializer.write_only_fields.contains f))

/-- Names accepted on input: the declared fields minus the method
fields, which are read-only (host framework convention). -/
def AttributeSerializer.inputFieldNames : List String :=
  AttributeSerializer.Meta.fields.filter
    (fun f => !(AttributeSerializer.method_fields.contains f))

/-- Serialization of one `Attribute`: the non-write-only declared fields
in order, with `value_display` computed by `get_value_display`. -/
def attributeSerialize (a : Attribute) : List (String × JsonVal) :=
  [("db_key", JsonVal.s a.db_key),
   ("db_category", optStr a.db_category),
   ("db_attrtype", optStr a.db_attrtype),
   ("value_display", JsonVal.s (AttributeSerializer.get_value_display a))]

/-- A `Tag` record: key/category/data/type-tagged label; used uniformly
for tags, aliases and permissions. -/
structure Tag : Type where
  db_key : Option String
  db_category : Option String
  db_data : Option String
  db_tagtype : Option String
  deriving DecidableEq

/-- Field list of `TagSerializer.Meta`. -/
def TagSerializer.Meta.fields : List String :=
  ["db_key", "db_category", "db_data", "db_tagtype"]

/-- Serialization of one `Tag`: the four declared columns, verbatim. -/
def tagSerialize (t : Tag) : List (String × JsonVal) :=
  [("db_key", optStr t.db_key),
   ("db_category", optStr t.db_category),
   ("db_data", optStr t.db_data),
   ("db_tagtype", optStr t.db_tagtype)]

/-- A contained game object as seen from its container: its primary
key, key string and optional destination (set only for exits). -/
structure ObjRef : Type where
  id : Int
  db_key : String
  destination : Option Int
  deriving DecidableEq

/-- Field list of `SimpleObjectDBSerializer.Meta`. -/
def SimpleObjectDBSerializer.Meta.fields : List String :=
  ["id", "db_key"]

/-- Serialization by `SimpleObjectDBSerializer`: only id and key. -/
def simpleObjectSerialize (o : ObjRef) : List (String × JsonVal) :=
  [("id", JsonVal.n o.id), ("db_key", JsonVal.s o.db_key)]

/-- A full `DefaultObject` record with its contents and the collections
returned by its attribute, tag, alias and permission handlers.  Each
handler is embedded by the list of records its
`get(return_tagobj=True, return_list=True)` call returns. -/
structure GameObject : Type where
  id : Int
  db_key : String
  db_typeclass_path : String
  db_location : Option Int
  db_home : Option Int
  contents : List ObjRef
  db_attributes : List Attribute
  tags_handler : List Tag
  aliases_handler : List Tag
  permissions_handler : List Tag

/-- A connected server session; `sessid` is `none` when the session
object has no `sessid` attribute (Python `hasattr` is false). -/
structure Session : Type where
  sessid : Option Int

/-- A `DefaultAccount` record with its sessions and handler contents. -/
structure Account : Type where
  id : Int
  username : String
  db_key : String
  db_typeclass_path : String
  sessions : List Session
  db_attributes : List Attribute
  tags_handler : List Tag
  aliases_handler : List Tag
  permissions_handler : List Tag

/-- A `ScriptDB` record with its timing fields and handler contents. -/
structure Script : Type where
  id : Int
  db_key : String
  db_typeclass_path : String
  db_interval : Int
  db_persistent : Bool
  db_start_delay : Bool
  db_is_active : Bool
  db_repeats : Int
  db_attributes : List Attribute
  tags_handler : List Tag
  aliases_handler : List Tag
  permissions_handler : List Tag

/-- Access to the tag, alias and permission handlers shared by every
typeclassed entity, so the mixin methods can be written once. -/
class TypeclassedEntity (α : Type) : Type where
  tagsHandler : α → List Tag
  aliasesHandler : α → List Tag
  permissionsHandler : α → List Tag

instance : TypeclassedEntity GameObject where
  tagsHandler := GameObject.tags_handler
  aliasesHandler := GameObject.aliases_handler
  permissionsHandler := GameObject.permissions_handler

instance : TypeclassedEntity Account where
  tagsHandler := Account.tags_handler
  aliasesHandler := Account.aliases_handler
  permissionsHandler := Account.permissions_handler

instance : TypeclassedEntity Script where
  tagsHandler := Script.tags_handler
  aliasesHandler := Script.aliases_handler
  permissionsHandler := Script.permissions_handler

/-- Shared field list `TypeclassSerializerMixin.shared_fields`. -/
def TypeclassSerializerMixin.shared_fields : List String :=
  ["id", "db_key", "db_attributes", "db_typeclass_path", "aliases", "tags", "permissions"]

/-- Embeds `TypeclassSerializerMixin.get_tags`: serializes every tag
returned by the entity's tags handler. -/
def TypeclassSerializerMixin.get_tags {α : Type} [TypeclassedEntity α]
    (obj : α) : List (List (String × JsonVal)) :=
  (TypeclassedEntity.tagsHandler obj).map tagSerialize

/-- Embeds `TypeclassSerializerMixin.get_aliases`: serializes every tag
returned by the entity's aliases handler. -/
def TypeclassSerializerMixin.get_aliases {α : Type} [TypeclassedEntity α]
    (obj : α) : List (List (String × JsonVal)) :=
  (TypeclassedEntity.aliasesHandler obj).map tagSerialize

/-- Embeds `TypeclassSerializerMixin.get_permissions`: serializes every
tag returned by the entity's permissions handler. -/
def TypeclassSerializerMixin.get_permissions {α : Type} [TypeclassedEntity α]
    (obj : α) : List (List (String × JsonVal)) :=
  (TypeclassedEntity.permissionsHandler obj).map tagSerialize

/-- The list built inside `ObjectDBSerializer.get_exits`: contained
objects whose `destination` is truthy (set). -/
def ObjectDBSerializer.exitObjects (obj : GameObject) : List ObjRef :=
  obj.contents.filter (fun ob => ob.destination.isSome)

/-- The list built inside `ObjectDBSerializer.get_contents`: contained
objects whose `destination` is falsy (unset). -/
def ObjectDBSerializer.nonExitObjects (obj : GameObject) : List ObjRef :=
  obj.contents.filter (fun ob => !ob.destination.isSome)

/-- Embeds `ObjectDBSerializer.get_exits`. -/
def ObjectDBSerializer.get_exits (obj : GameObject) : List (List (String × JsonVal)) :=
  (ObjectDBSerializer.exitObjects obj).map simpleObjectSerialize

/-- Embeds `ObjectDBSerializer.get_contents`. -/
def ObjectDBSerializer.get_contents (obj : GameObject) : List (List (String × JsonVal)) :=
  (ObjectDBSerializer.nonExitObjects obj).map simpleObjectSerialize

/-- Field list of `ObjectDBSerializer.Meta`. -/
def ObjectDBSerializer.Meta.fields : List String :=
  ["db_location", "db_home", "contents", "exits"] ++ TypeclassSerializerMixin.shared_fields

/-- Read-only field list of `ObjectDBSerializer.Meta`. -/
def ObjectDBSerializer.Meta.read_only_fields : List String :=
  ["id", "db_attributes"]

/-- Fields of `ObjectDBSerializer` that are `SerializerMethodField`s or
declared with `read_only=True`, hence never writable. -/
def ObjectDBSerializer.method_fields : List String :=
  ["contents", "exits", "tags", "aliases", "permissions", "db_attributes"]

/-- Full serialization by `ObjectDBSerializer`: the declared fields in
order, method fields computed by the functions above. -/
def objectSerialize (o : GameObject) : List (String × JsonVal) :=
  [("db_location", optNum o.db_location),
   ("db_home", optNum o.db_home),
   ("contents", JsonVal.list ((ObjectDBSerializer.get_contents o).map JsonVal.obj)),
   ("exits", JsonVal.list ((ObjectDBSerializer.get_exits o).map JsonVal.obj)),
   ("id", JsonVal.n o.id),
   ("db_key", JsonVal.s o.db_key),
   ("db_attributes", JsonVal.list (o.db_attributes.map (fun a => JsonVal.obj (attributeSerialize a)))),
   ("db_typeclass_path", JsonVal.s o.db_typeclass_path),
   ("aliases", JsonVal.list ((TypeclassSerializerMixin.get_aliases o).map JsonVal.obj)),
   ("tags", JsonVal.list ((TypeclassSerializerMixin.get_tags o).map JsonVal.obj)),
   ("permissions", JsonVal.list ((TypeclassSerializerMixin.get_permissions o).map JsonVal.obj))]

/-- Embeds `AccountSerializer.get_session_ids`: the session id of every
connected session that has a `sessid` attribute, in session order. -/
def AccountSerializer.get_session_ids (obj : Account) : List Int :=
  obj.sessions.filterMap (fun sess => sess.sessid)

/-- Field list of `AccountSerializer.Meta`. -/
def AccountSerializer.Meta.fields : List String :=
  ["username", "session_ids"] ++ TypeclassSerializerMixin.shared_fields

/-- Read-only field list of `AccountSerializer.Meta`. -/
def AccountSerializer.Meta.read_only_fields : List String :=
  ["id", "db_attributes", "db_tags", "session_ids"]

/-- Fields of `AccountSerializer` that are `SerializerMethodField`s or
declared with `read_only=True`, hence never writable. -/
def AccountSerializer.method_fields : List String :=
  ["session_ids", "tags", "aliases", "permissions", "db_attributes"]

/-- Full serialization by `AccountSerializer`. -/
def accountSerialize (a : Account) : List (String × JsonVal) :=
  [("username", JsonVal.s a.username),
   ("session_ids", JsonVal.list ((AccountSerializer.get_session_ids a).map JsonVal.n)),
   ("id", JsonVal.n a.id),
   ("db_key", JsonVal.s a.db_key),
   ("db_attributes", JsonVal.list (a.db_attributes.map (fun x => JsonVal.obj (attributeSerialize x)))),
   ("db_typeclass_path", JsonVal.s a.db_typeclass_path),
   ("aliases", JsonVal.list ((TypeclassSerializerMixin.get_aliases a).map JsonVal.obj)),
   ("tags", JsonVal.list ((TypeclassSerializerMixin.get_tags a).map JsonVal.obj)),
   ("permissions", JsonVal.list ((TypeclassSerializerMixin.get_permissions a).map JsonVal.obj))]

/-- Field list of `ScriptDBSerializer.Meta`. -/
def ScriptDBSerializer.Meta.fields : List String :=
  ["db_interval", "db_persistent", "db_start_delay", "db_is_active", "db_repeats"]
    ++ TypeclassSerializerMixin.shared_fields

/-- Read-only field list of `ScriptDBSerializer.Meta`. -/
def ScriptDBSerializer.Meta.read_only_fields : List String :=
  ["id", "db_attributes", "db_tags"]

/-- Fields of `ScriptDBSerializer` that are `SerializerMethodField`s or
declared with `read_only=True`, hence never writable. -/
def ScriptDBSerializer.method_fields : List String :=
  ["tags", "aliases", "permissions", "db_attributes"]

/-- Full serialization by `ScriptDBSerializer`. -/
def scriptSerialize (s : Script) : List (String × JsonVal) :=
  [("db_interval", JsonVal.n s.db_interval),
   ("db_persistent", JsonVal.b s.db_persistent),
   ("db_start_delay", JsonVal.b s.db_start_delay),
   ("db_is_active", JsonVal.b s.db_is_active),
   ("db_repeats", JsonVal.n s.db_repeats),
   ("id", JsonVal.n s.id),
   ("db_key", JsonVal.s s.db_key),
   ("db_attributes", JsonVal.list (s.db_attributes.map (fun x => JsonVal.obj (attributeSerialize x)))),
   ("db_typeclass_path", JsonVal.s s.db_typeclass_path),
   ("aliases", JsonVal.list ((TypeclassSerializerMixin.get_aliases s).map JsonVal.obj)),
   ("tags", JsonVal.list ((TypeclassSerializerMixin.get_tags s).map JsonVal.obj)),
   ("permissions", JsonVal.list ((TypeclassSerializerMixin.get_permissions s).map JsonVal.obj))]

/-- Writable field names of a serializer: the declared fields minus the
`Meta.read_only_fields` and minus the method/declared-read-only fields.
This is the host framework's rule for which inbound fields may be
written back to the instance. -/
def writableFields (fields ro methodF : List String) : List String :=
  fields.filter (fun f => !(ro.contains f) && !(methodF.contains f))

/-- Writable fields of `ObjectDBSerializer`. -/
def ObjectDBSerializer.writable_fields : List String :=
  writableFields ObjectDBSerializer.Meta.fields
    ObjectDBSerializer.Meta.read_only_fields ObjectDBSerializer.method_fields

/-- Writable fields of `AccountSerializer`. -/
def AccountSerializer.writable_fields : List String :=
  writableFields AccountSerializer.Meta.fields
    AccountSerializer.Meta.read_only_fields AccountSerializer.method_fields

/-- Writable fields of `ScriptDBSerializer`. -/
def ScriptDBSerializer.writable_fields : List String :=
  writableFields ScriptDBSerializer.Meta.fields
    ScriptDBSerializer.Meta.read_only_fields ScriptDBSerializer.method_fields

/-- Writes one named field of a `GameObject` from a JSON value.  Every
model column of the serializer, including `id` and `db_attributes`, has
a genuine write branch here; whether a branch can ever run is decided
solely by the writable-field gate in `updateEntity`.  The decoded value
stored for the related `db_attributes` list is immaterial to the claims,
so the write is represented by replacing the list. -/
def setObjectField (o : GameObject) (name : String) (v : JsonVal) : GameObject :=
  if name = "id" then
    match v with
    | JsonVal.n k => { o with id := k }
    | _ => o
  else if name = "db_key" then
    match v with
    | JsonVal.s str => { o with db_key := str }
    | _ => o
  else if name = "db_typeclass_path" then
    match v with
    | JsonVal.s str => { o with db_typeclass_path := str }
    | _ => o
  else if name = "db_location" then
    match v with
    | JsonVal.n k => { o with db_location := some k }
    | JsonVal.null => { o with db_location := none }
    | _ => o
  else if name = "db_home" then
    match v with
    | JsonVal.n k => { o with db_home := some k }
    | JsonVal.null => { o with db_home := none }
    | _ => o
  else if name = "db_attributes" then
    match v with
    | JsonVal.list _ => { o with db_attributes := [] }
    | _ => o
  else o

/-- Writes one named field of an `Account` from a JSON value; see
`setObjectField` for the conventions. -/
def setAccountField (a : Account) (name : String) (v : JsonVal) : Account :=
  if name = "id" then
    match v with
    | JsonVal.n k => { a with id := k }
    | _ => a
  else if name = "username" then
    match v with
    | JsonVal.s str => { a with username := str }
    | _ => a
  else if name = "db_key" then
    match v with
    | JsonVal.s str => { a with db_key := str }
    | _ => a
  else if name = "db_typeclass_path" then
    match v with
    | JsonVal.s str => { a with db_typeclass_path := str }
    | _ => a
  else if name = "db_attributes" then
    match v with
    | JsonVal.list _ => { a with db_attributes := [] }
    | _ => a
  else a

/-- Writes one named field of a `Script` from a JSON value; see
`setObjectField` for the conventions. -/
def setScriptField (s : Script) (name : String) (v : JsonVal) : Script :=
  if name = "id" then
    match v with
    | JsonVal.n k => { s with id := k }
    | _ => s
  else if name = "db_key" then
    match v with
    | JsonVal.s str => { s with db_key := str }
    | _ => s
  else if name = "db_typeclass_path" then
    match v with
    | JsonVal.s str => { s with db_typeclass_path := str }
    | _ => s
  else if name = "db_interval" then
    match v with
    | JsonVal.n k => { s with db_interval := k }
    | _ => s
  else if name = "db_persistent" then
    match v with
    | JsonVal.b x => { s with db_persistent := x }
    | _ => s
  else if name = "db_start_delay" then
    match v with
    | JsonVal.b x => { s with db_start_delay := x }
    | _ => s
  else if name = "db_is_active" then
    match v with
    | JsonVal.b x => { s with db_is_active := x }
    | _ => s
  else if name = "db_repeats" then
    match v with
    | JsonVal.n k => { s with db_repeats := k }
    | _ => s
  else if name = "db_attributes" then
    match v with
    | JsonVal.list _ => { s with db_attributes := [] }
    | _ => s
  else s

/-- Deserialization driver: folds the inbound association list over the
instance, writing a field only when its name is in the serializer's
writable set. -/
def updateEntity {α : Type} (set : α → String → JsonVal → α)
    (writable : List String) : α → List (String × JsonVal) → α
  | e, [] => e
  | e, p :: rest =>
      updateEntity set writable
        (if writable.contains p.1 then set e p.1 p.2 else e) rest

/-- Deserializing client input into an existing `GameObject`. -/
def objectDeserializeInto (o : GameObject) (input : List (String × JsonVal)) : GameObject :=
  updateEntity setObjectField ObjectDBSerializer.writable_fields o input

/-- Deserializing client input into an existing `Account`. -/
def accountDeserializeInto (a : Account) (input : List (String × JsonVal)) : Account :=
  updateEntity setAccountField AccountSerializer.writable_fields a input

/-- Deserializing client input into an existing `Script`. -/
def scriptDeserializeInto (s : Script) (input : List (String × JsonVal)) : Script :=
  updateEntity setScriptField ScriptDBSerializer.writable_fields s input

/-- State-passing form of `ObjectDBSerializer`: a serialization pass
returns its output together with the instance, which the method body
never writes. -/
def objectSerializeS (o : GameObject) : List (String × JsonVal) × GameObject :=
  (objectSerialize o, o)

/-- State-passing form of `AccountSerializer`. -/
def accountSerializeS (a : Account) : List (String × JsonVal) × Account :=
  (accountSerialize a, a)

/-- State-passing form of `ScriptDBSerializer`. -/
def scriptSerializeS (s : Script) : List (String × JsonVal) × Script :=
  (scriptSerialize s, s)

/-- Splitting a list by a Boolean predicate preserves the multiplicity
of every element. -/
theorem count_filter_add_count_filter_not {α : Type} [DecidableEq α]
    (p : α → Bool) (l : List α) (a : α) :
    (l.filter p).count a + (l.filter (fun x => !p x)).count a = l.count a := by
  induction l with
  | nil => rfl
  | cons x xs ih =>
      cases hp : p x <;>
        simp [List.filter_cons, hp, List.count_cons, ih] <;> omega

/-- Collecting the session ids present in a session list agrees with
first keeping the sessions that have an id and then reading the id. -/
theorem filterMap_sessid_eq_filter_map (l : List Session) :
    l.filterMap (fun sess => sess.sessid)
      = (l.filter (fun sess => sess.sessid.isSome)).map
          (fun sess => sess.sessid.getD 0) := by
  induction l with
  | nil => rfl
  | cons x xs ih =>
      cases hx : x.sessid <;>
        simp [List.filterMap_cons, List.filter_cons, hx, ih]

/-- Any projection unchanged by every gated write is unchanged by the
whole deserialization fold. -/
theorem updateEntity_preserves {α β : Type} (set : α → String → JsonVal → α)
    (writable : List String) (f : α → β)
    (h : ∀ e n v, writable.contains n = true → f (set e n v) = f e) :
    ∀ (input : List (String × JsonVal)) (e : α),
      f (updateEntity set writable e input) = f e := by
  intro input
  induction input with
  | nil => intro e; rfl
  | cons p rest ih =>
      intro e
      show f (updateEntity set writable
        (if writable.contains p.1 then set e p.1 p.2 else e) rest) = f e
      cases hc : writable.contains p.1 with
      | false =>
          rw [if_neg (by simp [hc])]
          exact ih e
      | true =>
          rw [if_pos (by simp [hc]), ih (set e p.1 p.2)]
          exact h e p.1 p.2 hc

/-- Every writable field of `ObjectDBSerializer` leaves the instance id
and attribute list untouched when written. -/
theorem setObjectField_writable_frame (o : GameObject) (n : String) (v : JsonVal)
    (hn : ObjectDBSerializer.writable_fields.contains n = true) :
    (setObjectField o n v).id = o.id ∧
    (setObjectField o n v).db_attributes = o.db_attributes := by
  have hmem : n = "db_location" ∨ n = "db_home" ∨ n = "db_key" ∨
      n = "db_typeclass_path" := by
    simpa [ObjectDBSerializer.writable_fields, writableFields,
      ObjectDBSerializer.Meta.fields, TypeclassSerializerMixin.shared_fields,
      ObjectDBSerializer.Meta.read_only_fields,
      ObjectDBSerializer.method_fields] using hn
  rcases hmem with rfl | rfl | rfl | rfl <;> cases v <;> simp [setObjectField]

/-- Every writable field of `AccountSerializer` leaves the instance id
and attribute list untouched when written. -/
theorem setAccountField_writable_frame (a : Account) (n : String) (v : JsonVal)
    (hn : AccountSerializer.writable_fields.contains n = true) :
    (setAccountField a n v).id = a.id ∧
    (setAccountField a n v).db_attributes = a.db_attributes := by
  have hmem : n = "username" ∨ n = "db_key" ∨ n = "db_typeclass_path" := by
    simpa [AccountSerializer.writable_fields, writableFields,
      AccountSerializer.Meta.fields, TypeclassSerializerMixin.shared_fields,
      AccountSerializer.Meta.read_only_fields,
      AccountSerializer.method_fields] using hn
  rcases hmem with rfl | rfl | rfl <;> cases v <;> simp [setAccountField]

/-- Every writable field of `ScriptDBSerializer` leaves the instance id
and attribute list untouched when written. -/
theorem setScriptField_writable_frame (s : Script) (n : String) (v : JsonVal)
    (hn : ScriptDBSerializer.writable_fields.contains n = true) :
    (setScriptField s n v).id = s.id ∧
    (setScriptField s n v).db_attributes = s.db_attributes := by
  have hmem : n = "db_interval" ∨ n = "db_persistent" ∨ n = "db_start_delay" ∨
      n = "db_is_active" ∨ n = "db_repeats" ∨ n = "db_key" ∨
      n = "db_typeclass_path" := by
    simpa [ScriptDBSerializer.writable_fields, writableFields,
      ScriptDBSerializer.Meta.fields, TypeclassSerializerMixin.shared_fields,
      ScriptDBSerializer.Meta.read_only_fields,
      ScriptDBSerializer.method_fields] using hn
  rcases hmem with rfl | rfl | rfl | rfl | rfl | rfl | rfl <;> cases v <;>
    simp [setScriptField]

/-- A concrete attribute whose stored string form is present but empty,
while the typed value prints as a non-empty string. -/
def emptyStrAttr : Attribute :=
  { db_key := "color", db_category := none, db_attrtype := none,
    db_strvalue := some "", value_str := "blue" }

/-- A concrete attribute whose stored string form is present and
non-empty. -/
def redAttr : Attribute :=
  { db_key := "color", db_category := none, db_attrtype := none,
    db_strvalue := some "red", value_str := "blue" }

/-- Claim C1: the Object view splits an object's contents into the exits
list (contained objects with a destination set) and the contents list
(contained objects with no destination); membership in each split is
exactly as described, the two splits are disjoint in the sense that each
contained object satisfies exactly one membership condition, every
contained object keeps its multiplicity across the split, and each split
is rendered through the simplified object reference view. -/
theorem ObjectDBSerializer.exits_contents_partition
    (obj : GameObject) (ob : ObjRef) :
    (ob ∈ ObjectDBSerializer.exitObjects obj ↔
        ob ∈ obj.contents ∧ ob.destination.isSome = true)
  ∧ (ob ∈ ObjectDBSerializer.nonExitObjects obj ↔
        ob ∈ obj.contents ∧ ob.destination.isSome = false)
  ∧ (ObjectDBSerializer.exitObjects obj).count ob
      + (ObjectDBSerializer.nonExitObjects obj).count ob
      = obj.contents.count ob
  ∧ ObjectDBSerializer.get_exits obj
      = (ObjectDBSerializer.exitObjects obj).map simpleObjectSerialize
  ∧ ObjectDBSerializer.get_contents obj
      = (ObjectDBSerializer.nonExitObjects obj).map simpleObjectSerialize := by
  refine ⟨?_, ?_, ?_, rfl, rfl⟩
  · simp [ObjectDBSerializer.exitObjects, List.mem_filter]
  · simp [ObjectDBSerializer.nonExitObjects, List.mem_filter]
  · exact count_filter_add_count_filter_not _ _ _

/-- Claim C3: the Account view's session id list holds exactly the
session id of each connected session that has a session-id attribute, in
the order the sessions are listed; sessions without one are omitted. -/
theorem AccountSerializer.session_ids_exact (obj : Account) :
    AccountSerializer.get_session_ids obj
      = (obj.sessions.filter (fun sess => sess.sessid.isSome)).map
          (fun sess => sess.sessid.getD 0)
  ∧ (∀ k : Int, k ∈ AccountSerializer.get_session_ids obj ↔
        ∃ sess, sess ∈ obj.sessions ∧ sess.sessid = some k) := by
  constructor
  · exact filterMap_sessid_eq_filter_map obj.sessions
  · intro k
    simp [AccountSerializer.get_session_ids, List.mem_filterMap]

/-- Claim C5: each tag-shaped output list of a full entity view is a
function of its own handler only — tags from the tags handler, aliases
from the aliases handler, permissions from the permissions handler — on
objects, accounts and scripts alike, and replacing the other two
handlers never changes it, so categories are never mixed in output. -/
theorem TypeclassSerializerMixin.handler_partition
    (o : GameObject) (a : Account) (s : Script) (t al p : List Tag) :
    TypeclassSerializerMixin.get_tags o = o.tags_handler.map tagSerialize
  ∧ TypeclassSerializerMixin.get_aliases o = o.aliases_handler.map tagSerialize
  ∧ TypeclassSerializerMixin.get_permissions o
      = o.permissions_handler.map tagSerialize
  ∧ TypeclassSerializerMixin.get_tags a = a.tags_handler.map tagSerialize
  ∧ TypeclassSerializerMixin.get_aliases a = a.aliases_handler.map tagSerialize
  ∧ TypeclassSerializerMixin.get_permissions a
      = a.permissions_handler.map tagSerialize
  ∧ TypeclassSerializerMixin.get_tags s = s.tags_handler.map tagSerialize
  ∧ TypeclassSerializerMixin.get_aliases s = s.aliases_handler.map tagSerialize
  ∧ TypeclassSerializerMixin.get_permissions s
      = s.permissions_handler.map tagSerialize
  ∧ TypeclassSerializerMixin.get_tags
      { o with aliases_handler := al, permissions_handler := p }
      = TypeclassSerializerMixin.get_tags o
  ∧ TypeclassSerializerMixin.get_aliases
      { o with tags_handler := t, permissions_handler := p }
      = TypeclassSerializerMixin.get_aliases o
  ∧ TypeclassSerializerMixin.get_permissions
      { o with tags_handler := t, aliases_handler := al }
      = TypeclassSerializerMixin.get_permissions o :=
  ⟨rfl, rfl, rfl, rfl, rfl, rfl, rfl, rfl, rfl, rfl, rfl, rfl⟩

/-- Claim C7: the Tag view reproduces the backing record's key,
category, data and tag-type unchanged, and its output has no other
fields. -/
theorem TagSerializer.fields_verbatim (t : Tag) :
    (tagSerialize t).lookup "db_key" = some (optStr t.db_key)
  ∧ (tagSerialize t).lookup "db_category" = some (optStr t.db_category)
  ∧ (tagSerialize t).lookup "db_data" = some (optStr t.db_data)
  ∧ (tagSerialize t).lookup "db_tagtype" = some (optStr t.db_tagtype)
  ∧ (tagSerialize t).map Prod.fst = TagSerializer.Meta.fields :=
  ⟨rfl, rfl, rfl, rfl, rfl⟩

/-- Claim C8: serialization is stateless and deterministic — in
state-passing form a pass returns the instance unchanged, and a second
pass over the returned instance produces the same output as the first,
for objects, accounts and scripts. -/
theorem serializers_stateless (o : GameObject) (a : Account) (s : Script) :
    (objectSerializeS o).2 = o
  ∧ (objectSerializeS ((objectSerializeS o).2)).1 = (objectSerializeS o).1
  ∧ (accountSerializeS a).2 = a
  ∧ (accountSerializeS ((accountSerializeS a).2)).1 = (accountSerializeS a).1
  ∧ (scriptSerializeS s).2 = s
  ∧ (scriptSerializeS ((scriptSerializeS s).2)).1 = (scriptSerializeS s).1 :=
  ⟨rfl, rfl, rfl, rfl, rfl, rfl⟩

/-- Claim C2 counterexample: an attribute whose stored string form is
present but empty; the computed display is the value text, not the
present (empty) stored string, refuting the claim that the display
equals the stored string form whenever one is present. -/
theorem AttributeSerializer.value_display_empty_stored_counterexample :
    emptyStrAttr.db_strvalue = some "" ∧
    AttributeSerializer.get_value_display emptyStrAttr = "blue" ∧
    ¬ AttributeSerializer.get_value_display emptyStrAttr = "" := by
  refine ⟨rfl, ?_, ?_⟩ <;> decide

/-- Claim C2 (amended): the computed display string equals the stored
string form when a non-empty one is present, and otherwise (stored form
absent or empty) equals the textual form of the typed value. -/
theorem AttributeSerializer.value_display_amended (a : Attribute) :
    (∀ str : String, a.db_strvalue = some str → str ≠ "" →
        AttributeSerializer.get_value_display a = str)
  ∧ ((a.db_strvalue = none ∨ a.db_strvalue = some "") →
        AttributeSerializer.get_value_display a = a.value_str) := by
  constructor
  · intro str hsome hne
    simp [AttributeSerializer.get_value_display, strTruthy, hsome, hne]
  · rintro (hnone | hempty)
    · simp [AttributeSerializer.get_value_display, strTruthy, hnone]
    · simp [AttributeSerializer.get_value_display, strTruthy, hempty]

/-- Claim C2 witness: the amended statement applied to one attribute
with a non-empty stored string and one with an empty stored string. -/
theorem AttributeSerializer.value_display_amended_witness :
    AttributeSerializer.get_value_display redAttr = "red" ∧
    AttributeSerializer.get_value_display emptyStrAttr = emptyStrAttr.value_str := by
  constructor
  · exact (AttributeSerializer.value_display_amended redAttr).1 "red" rfl (by decide)
  · exact (AttributeSerializer.value_display_amended emptyStrAttr).2 (Or.inr rfl)

/-- Claim C9: the stored-string branch of the display computation is
taken only when the stored string is truthy: a present-but-empty (or
absent) stored string falls back to the value text, and whenever the
display differs from the value text the stored string is some non-empty
string and is itself the display. -/
theorem AttributeSerializer.value_display_truthy_only (a : Attribute) :
    ((a.db_strvalue = some "" ∨ a.db_strvalue = none) →
        AttributeSerializer.get_value_display a = a.value_str)
  ∧ (AttributeSerializer.get_value_display a ≠ a.value_str →
        ∃ str : String, a.db_strvalue = some str ∧ str ≠ "" ∧
          AttributeSerializer.get_value_display a = str) := by
  constructor
  · rintro (hempty | hnone)
    · simp [AttributeSerializer.get_value_display, strTruthy, hempty]
    · simp [AttributeSerializer.get_value_display, strTruthy, hnone]
  · intro hne
    match hcase : a.db_strvalue with
    | none =>
        exact absurd (by simp [AttributeSerializer.get_value_display, strTruthy, hcase]) hne
    | some str =>
        by_cases hs : str = ""
        · subst hs
          exact absurd (by simp [AttributeSerializer.get_value_display, strTruthy, hcase]) hne
        · exact ⟨str, rfl,  hs,
            by simp [AttributeSerializer.get_value_display, strTruthy, hcase, hs]⟩

/-- Claim C9 witness: the statement applied to an attribute with an
empty stored string and to one whose display differs from its value
text. -/
theorem AttributeSerializer.value_display_truthy_only_witness :
    AttributeSerializer.get_value_display emptyStrAttr = emptyStrAttr.value_str ∧
    (∃ str : String, redAttr.db_strvalue = some str ∧ str ≠ "" ∧
        AttributeSerializer.get_value_display redAttr = str) := by
  constructor
  · exact (AttributeSerializer.value_display_truthy_only emptyStrAttr).1 (Or.inl rfl)
  · exact (AttributeSerializer.value_display_truthy_only redAttr).2 (by decide)

/-- Claim C4: every shared-bundle field name (id, key, attributes,
typeclass path, aliases, tags, permissions) is declared by the Object,
Account and Script views; each of those views outputs exactly its
declared field names in order, and renders the attribute list through
the Attribute view. -/
theorem TypeclassSerializerMixin.shared_bundle_exposed :
    (TypeclassSerializerMixin.shared_fields.all (fun f =>
        ObjectDBSerializer.Meta.fields.contains f &&
        AccountSerializer.Meta.fields.contains f &&
        ScriptDBSerializer.Meta.fields.contains f) = true)
  ∧ (∀ o : GameObject,
        (objectSerialize o).map Prod.fst = ObjectDBSerializer.Meta.fields
      ∧ (objectSerialize o).lookup "db_attributes"
          = some (JsonVal.list (o.db_attributes.map
              (fun x => JsonVal.obj (attributeSerialize x)))))
  ∧ (∀ a : Account,
        (accountSerialize a).map Prod.fst = AccountSerializer.Meta.fields
      ∧ (accountSerialize a).lookup "db_attributes"
          = some (JsonVal.list (a.db_attributes.map
              (fun x => JsonVal.obj (attributeSerialize x)))))
  ∧ (∀ s : Script,
        (scriptSerialize s).map Prod.fst = ScriptDBSerializer.Meta.fields
      ∧ (scriptSerialize s).lookup "db_attributes"
          = some (JsonVal.list (s.db_attributes.map
              (fun x => JsonVal.obj (attributeSerialize x))))) := by
  exact ⟨by decide, fun o => ⟨rfl, rfl⟩, fun a => ⟨rfl, rfl⟩, fun s => ⟨rfl, rfl⟩⟩

/-- Claim C6: the raw value field of the Attribute view is write-only —
it is among the accepted input fields but never among the output fields,
and the output consists of exactly the key, category, type and
display-string fields. -/
theorem AttributeSerializer.db_value_write_only (a : Attribute) :
    (attributeSerialize a).map Prod.fst = AttributeSerializer.outputFieldNames
  ∧ AttributeSerializer.outputFieldNames
      = ["db_key", "db_category", "db_attrtype", "value_display"]
  ∧ "db_value" ∈ AttributeSerializer.inputFieldNames
  ∧ "db_value" ∉ (attributeSerialize a).map Prod.fst := by
  have h1 : (attributeSerialize a).map Prod.fst
      = ["db_key", "db_category", "db_attrtype", "value_display"] := rfl
  refine ⟨rfl, rfl, by decide, ?_⟩
  rw [h1]
  decide

/-- Claim C10: the id and attribute-list fields are declared read-only
in the Object, Account and Script views, and deserializing any client
input into an entity leaves its id and its attribute list unchanged. -/
theorem read_only_id_attributes_preserved :
    ("id" ∈ ObjectDBSerializer.Meta.read_only_fields ∧
     "db_attributes" ∈ ObjectDBSerializer.Meta.read_only_fields ∧
     "id" ∈ AccountSerializer.Meta.read_only_fields ∧
     "db_attributes" ∈ AccountSerializer.Meta.read_only_fields ∧
     "id" ∈ ScriptDBSerializer.Meta.read_only_fields ∧
     "db_attributes" ∈ ScriptDBSerializer.Meta.read_only_fields)
  ∧ (∀ (o : GameObject) (input : List (String × JsonVal)),
        (objectDeserializeInto o input).id = o.id ∧
        (objectDeserializeInto o input).db_attributes = o.db_attributes)
  ∧ (∀ (a : Account) (input : List (String × JsonVal)),
        (accountDeserializeInto a input).id = a.id ∧
        (accountDeserializeInto a input).db_attributes = a.db_attributes)
  ∧ (∀ (s : Script) (input : List (String × JsonVal)),
        (scriptDeserializeInto s input).id = s.id ∧
        (scriptDeserializeInto s input).db_attributes = s.db_attributes) := by
  refine ⟨by decide, ?_, ?_, ?_⟩
  · intro o input
    exact ⟨updateEntity_preserves setObjectField ObjectDBSerializer.writable_fields
        GameObject.id (fun e n v hn => (setObjectField_writable_frame e n v hn).1)
        input o,
      updateEntity_preserves setObjectField ObjectDBSerializer.writable_fields
        GameObject.db_attributes
        (fun e n v hn => (setObjectField_writable_frame e n v hn).2) input o⟩
  · intro a input
    exact ⟨updateEntity_preserves setAccountField AccountSerializer.writable_fields
        Account.id (fun e n v hn => (setAccountField_writable_frame e n v hn).1)
        input a,
      updateEntity_preserves setAccountField AccountSerializer.writable_fields
        Account.db_attributes
        (fun e n v hn => (setAccountField_writable_frame e n v hn).2) input a⟩
  · intro s input
    exact ⟨updateEntity_preserves setScriptField ScriptDBSerializer.writable_fields
        Script.id (fun e n v hn => (setScriptField_writable_frame e n v hn).1)
        input s,
      updateEntity_preserves setScriptField ScriptDBSerializer.writable_fields
        Script.db_attributes
        (fun e n v hn => (setScriptField_writable_frame e n v hn).2) input s⟩
